import Mathlib

/-!
Shallow embedding of the Agroverse shop order-lifecycle core
(google-app-script/agroverse_shop_checkout.gs together with the browser
helpers js/order-status.js and js/checkout.js), and proofs of the spec's
testable properties over that embedding.

Modelling conventions:
* The Google Sheet "Orders" tab is a `List OrderRow` (the data rows, in
  order; the header row is implicit, and row numbers reported by
  `findOrderRow` are 1-based counting the header, as in the source).
* JavaScript falsy defaulting (`x || d`) on strings treats the empty
  string as absent, and on numbers treats `0` as absent; the helpers
  `jsOr`, `jsOrStr` and `jsOrNat` reproduce this.
* `JSON.stringify`/`JSON.parse` round-trips of the items and address
  cells are modelled as the identity: the row stores the structured
  values directly.
* Side-effecting calls are made explicit: mail transport results become
  a list of `EmailMessage` values, Stripe API calls become a log of
  `StripePayload` values together with an oracle for the response, and
  `Logger.log` is not observable.
-/

namespace AgroverseShop

/-- JavaScript `opt || d` for an optional string field: `undefined`,
`null` and the empty string all fall through to the default. -/
def jsOr (o : Option String) (d : String) : String :=
  match o with
  | some s => if s = "" then d else s
  | none => d

/-- JavaScript `s || d` where `s` is a string already known to be
present: only the empty string falls through. -/
def jsOrStr (s d : String) : String :=
  if s = "" then d else s

/-- JavaScript `opt || d` for an optional numeric field: `undefined`,
`null` and `0` all fall through to the default. -/
def jsOrNat (o : Option Nat) (d : Nat) : Nat :=
  match o with
  | some n => if n = 0 then d else n
  | none => d

/-! ## Tracking-link derivation (`getTrackingUrl`) -/

/-- JavaScript `String.prototype.trim()`: drop whitespace from both
ends (restricted to the ASCII whitespace relevant here). -/
def jsTrim (s : String) : String :=
  String.mk (((s.data.dropWhile Char.isWhitespace).reverse.dropWhile
    Char.isWhitespace).reverse)

/-- JavaScript `String.prototype.toUpperCase()` (ASCII range, which
covers the tracking-number alphabet). -/
def jsToUpperCase (s : String) : String :=
  String.mk (s.data.map Char.toUpper)

/-- JavaScript `s.startsWith(p)`. -/
def jsStartsWith (s p : String) : Bool :=
  p.data.isPrefixOf s.data

/-- Deterministic matcher for the source regex `^\d+[A-Z]{2}\d+US$`
(anchored; `\d` and `[A-Z]` are disjoint character classes, so greedy
matching is equivalent to the regex, proved in `uspsPatternMatch_iff`). -/
def uspsPatternMatch (cs : List Char) : Bool :=
  match cs.dropWhile Char.isDigit with
  | a :: b :: r2 =>
    decide (cs.takeWhile Char.isDigit ≠ []) && a.isUpper && b.isUpper &&
      decide (r2.takeWhile Char.isDigit ≠ []) &&
      decide (r2.dropWhile Char.isDigit = ['U', 'S'])
  | _ => false

/-- Matcher for the source regex `^\d{12}$`. -/
def twelveDigitMatch (cs : List Char) : Bool :=
  cs.length == 12 && cs.all Char.isDigit

/-- Base of the USPS tracking link built by the source. -/
def uspsUrlBase : String := "https://tools.usps.com/go/TrackConfirmAction?tLabels="

/-- Base of the UPS tracking link built by the source. -/
def upsUrlBase : String := "https://www.ups.com/track?tracknum="

/-- Base of the FedEx tracking link built by the source. -/
def fedexUrlBase : String := "https://www.fedex.com/fedextrack/?trknbr="

/-- The `getTrackingUrl` of the Apps Script core: trim, upper-case,
then USPS pattern, `1Z` prefix, twelve digits, USPS default. -/
def getTrackingUrl (trackingNumber : String) : String :=
  let trimmed := jsToUpperCase (jsTrim trackingNumber)
  if uspsPatternMatch trimmed.data then
    uspsUrlBase ++ trimmed
  else if jsStartsWith trimmed "1Z" then
    upsUrlBase ++ trimmed
  else if twelveDigitMatch trimmed.data then
    fedexUrlBase ++ trimmed
  else
    uspsUrlBase ++ trimmed

/-- The `getTrackingUrl` of js/order-status.js: identical to the core
version except for a leading falsy guard returning `null`. -/
def getTrackingUrlBrowser (trackingNumber : String) : Option String :=
  if trackingNumber = "" then none
  else
    let trimmed := jsToUpperCase (jsTrim trackingNumber)
    if uspsPatternMatch trimmed.data then
      some (uspsUrlBase ++ trimmed)
    else if jsStartsWith trimmed "1Z" then
      some (upsUrlBase ++ trimmed)
    else if twelveDigitMatch trimmed.data then
      some (fedexUrlBase ++ trimmed)
    else
      some (uspsUrlBase ++ trimmed)

/-- Declarative semantics of the regex `^\d+[A-Z]{2}\d+US$`: one or
more digits, exactly two upper-case letters, one or more digits, the
literal `US`. -/
def IsUspsPattern (cs : List Char) : Prop :=
  ∃ d1 a b d2, cs = d1 ++ a :: b :: (d2 ++ ['U', 'S']) ∧
    d1 ≠ [] ∧ (∀ c ∈ d1, c.isDigit = true) ∧
    a.isUpper = true ∧ b.isUpper = true ∧
    d2 ≠ [] ∧ (∀ c ∈ d2, c.isDigit = true)

/-- Declarative semantics of the regex `^\d{12}$`. -/
def IsTwelveDigits (cs : List Char) : Prop :=
  cs.length = 12 ∧ ∀ c ∈ cs, c.isDigit = true

theorem upper_not_digit (c : Char) (h : c.isUpper = true) : c.isDigit = false := by
  simp only [Char.isUpper, Bool.and_eq_true, decide_eq_true_eq] at h
  rw [Bool.eq_false_iff]
  intro hd
  simp only [Char.isDigit, Bool.and_eq_true, decide_eq_true_eq] at hd
  have h1 : (65 : Nat) ≤ c.val.toNat := h.1
  have h2 : c.val.toNat ≤ (57 : Nat) := hd.2
  omega

theorem takeWhile_of_all_append (p : Char → Bool) (l : List Char) (a : Char)
    (t : List Char) (hl : ∀ c ∈ l, p c = true) (ha : p a = false) :
    (l ++ a :: t).takeWhile p = l ∧ (l ++ a :: t).dropWhile p = a :: t := by
  induction l with
  | nil => simp [List.takeWhile, List.dropWhile, ha]
  | cons x xs ih =>
    have hx : p x = true := hl x (by simp)
    have ihs := ih (fun c hc => hl c (by simp [hc]))
    simp [List.takeWhile, List.dropWhile, hx, ihs.1, ihs.2]

theorem uspsPatternMatch_iff (cs : List Char) :
    uspsPatternMatch cs = true ↔ IsUspsPattern cs := by
  constructor
  · intro h
    unfold uspsPatternMatch at h
    rcases hdrop : cs.dropWhile Char.isDigit with _ | ⟨a, rest⟩
    · rw [hdrop] at h; exact absurd h (by simp)
    rcases rest with _ | ⟨b, r2⟩
    · rw [hdrop] at h; exact absurd h (by simp)
    rw [hdrop] at h
    simp only [Bool.and_eq_true, decide_eq_true_eq] at h
    rcases h with ⟨⟨⟨⟨h1, ha⟩, hb⟩, h2⟩, h3⟩
    refine ⟨cs.takeWhile Char.isDigit, a, b, r2.takeWhile Char.isDigit, ?_, h1,
      fun c hc => List.mem_takeWhile_imp hc, ha, hb, h2,
      fun c hc => List.mem_takeWhile_imp hc⟩
    have h4 : r2 = r2.takeWhile Char.isDigit ++ ['U', 'S'] := by
      conv_lhs => rw [← List.takeWhile_append_dropWhile Char.isDigit r2]
      rw [h3]
    conv_lhs => rw [← List.takeWhile_append_dropWhile Char.isDigit cs, hdrop, h4]
  · rintro ⟨d1, a, b, d2, hcs, h1, hd1, ha, hb, h2, hd2⟩
    have hU : Char.isDigit 'U' = false := by decide
    have hna := upper_not_digit a ha
    have hsplit1 := takeWhile_of_all_append Char.isDigit d1 a
      (b :: (d2 ++ ['U', 'S'])) hd1 hna
    have hsplit2 := takeWhile_of_all_append Char.isDigit d2 'U' ['S'] hd2 hU
    rw [hcs]
    unfold uspsPatternMatch
    rw [hsplit1.2]
    simp [hsplit1.1, hsplit2.1, hsplit2.2, h1, ha, hb, h2]

theorem twelveDigitMatch_iff (cs : List Char) :
    twelveDigitMatch cs = true ↔ IsTwelveDigits cs := by
  simp [twelveDigitMatch, IsTwelveDigits, List.all_eq_true]

instance (cs : List Char) : Decidable (IsUspsPattern cs) :=
  decidable_of_iff (uspsPatternMatch cs = true) (uspsPatternMatch_iff cs)

instance (cs : List Char) : Decidable (IsTwelveDigits cs) :=
  decidable_of_iff (twelveDigitMatch cs = true) (twelveDigitMatch_iff cs)

/-! ## Data model: Stripe sessions, events, order rows -/

/-- Stripe `session.customer_details`. -/
structure CustomerDetails where
  email : Option String
deriving DecidableEq

/-- Stripe address object (`shipping_details.address`). -/
structure StripeAddress where
  line1 : Option String
  city : Option String
  state : Option String
  postal_code : Option String
  country : Option String
deriving DecidableEq

/-- Stripe `session.shipping_details`. -/
structure ShippingDetails where
  name : Option String
  address : Option StripeAddress
deriving DecidableEq

/-- The `custom` sub-object of a Stripe display item. -/
structure DisplayItemCustom where
  name : Option String
deriving DecidableEq

/-- One entry of `session.display_items`; `amount` is in cents. -/
structure DisplayItem where
  custom : Option DisplayItemCustom
  description : Option String
  quantity : Option Nat
  amount : Option Nat
deriving DecidableEq

/-- The Stripe checkout-session object carried by a completion event
(`event.data.object`); only the fields the core reads. -/
structure StripeSession where
  id : String
  customer_details : Option CustomerDetails
  customer_email : Option String
  shipping_details : Option ShippingDetails
  display_items : Option (List DisplayItem)
deriving DecidableEq

/-- An inbound Stripe webhook event: its `type` and `data.object`. -/
structure StripeEvent where
  type : String
  object : StripeSession
deriving DecidableEq

/-- One formatted line item as stored in the Items cell. -/
structure OrderItem where
  name : String
  quantity : Nat
  price : ℚ
deriving DecidableEq

/-- The formatted shipping address as stored in the sheet. -/
structure FormattedAddress where
  fullName : String
  address : String
  city : String
  state : String
  zip : String
  country : String
deriving DecidableEq

/-- One data row of the Orders sheet, columns in source order:
session id, customer email, date, status, items, shipping address,
tracking number, email-sent flag, last-updated timestamp. The items
and address cells hold the structured values (JSON round-trips are
modelled as the identity). -/
structure OrderRow where
  sessionId : String
  email : String
  date : String
  status : String
  items : List OrderItem
  shippingAddress : FormattedAddress
  trackingNumber : String
  emailSent : String
  lastUpdated : String
deriving DecidableEq

/-- The order value returned by `getOrderStatus` (same nine fields,
read back from a row). -/
structure OrderView where
  sessionId : String
  email : String
  date : String
  status : String
  items : List OrderItem
  shippingAddress : FormattedAddress
  trackingNumber : String
  emailSent : String
  lastUpdated : String
deriving DecidableEq

/-! ## Event Ingestor (`saveOrderToSheet`, `handleStripeWebhook`) -/

/-- Customer email extraction:
`session.customer_details?.email || session.customer_email || ''`. -/
def customerEmailOf (session : StripeSession) : String :=
  jsOr (session.customer_details.bind CustomerDetails.email)
    (jsOr session.customer_email "")

/-- Items formatting: `(session.display_items || []).map(...)` with
`item.custom?.name || item.description || 'Product'`,
`item.quantity || 1` and `(item.amount || 0) / 100`. -/
def itemsOf (session : StripeSession) : List OrderItem :=
  (session.display_items.getD []).map fun item =>
    { name := jsOr (item.custom.bind DisplayItemCustom.name)
        (jsOr item.description "Product")
      quantity := jsOrNat item.quantity 1
      price := (jsOrNat item.amount 0 : ℚ) / 100 }

/-- Shipping-address formatting from `session.shipping_details`. -/
def formattedAddressOf (session : StripeSession) : FormattedAddress :=
  let shippingAddress :=
    (session.shipping_details.bind ShippingDetails.address).getD
      { line1 := none, city := none, state := none, postal_code := none,
        country := none }
  { fullName := jsOr (session.shipping_details.bind ShippingDetails.name) ""
    address := jsOr shippingAddress.line1 ""
    city := jsOr shippingAddress.city ""
    state := jsOr shippingAddress.state ""
    zip := jsOr shippingAddress.postal_code ""
    country := jsOr shippingAddress.country "US" }

/-- The row appended for a fresh completed session: status `Placed`,
empty tracking number, email-sent flag `No`, both timestamps set to the
ingestion time. -/
def rowFromSession (now : String) (session : StripeSession) : OrderRow :=
  { sessionId := session.id
    email := customerEmailOf session
    date := now
    status := "Placed"
    items := itemsOf session
    shippingAddress := formattedAddressOf session
    trackingNumber := ""
    emailSent := "No"
    lastUpdated := now }

/-- Loop body of `findOrderRow`: scan from sheet index `i` (the source
starts at `i = 1`, skipping the header) and return the 1-based sheet
row `i + 1` of the first match, or `0`. -/
def findOrderRowAux (sessionId : String) : List OrderRow → Nat → Nat
  | [], _ => 0
  | r :: rest, i =>
    if r.sessionId = sessionId then i + 1 else findOrderRowAux sessionId rest (i + 1)

/-- The source `findOrderRow`: first matching data row as a 1-based
sheet row number (header = row 1), or `0` when absent. -/
def findOrderRow (rows : List OrderRow) (sessionId : String) : Nat :=
  findOrderRowAux sessionId rows 1

/-- The source `saveOrderToSheet`: idempotency check by `findOrderRow`,
then `appendRow` of the extracted order data. -/
def saveOrderToSheet (now : String) (session : StripeSession)
    (rows : List OrderRow) : List OrderRow :=
  if findOrderRow rows session.id > 0 then rows
  else rows ++ [rowFromSession now session]

/-- Response of the webhook handler: `{received: true}` or `{error}`. -/
inductive WebhookResponse where
  | received
  | error (msg : String)
deriving DecidableEq

/-- The source `handleStripeWebhook`: reads the `stripe-signature`
parameter but performs no verification of it, ingests only
`checkout.session.completed` events, and acknowledges everything. -/
def handleStripeWebhook (now : String) (signature : String)
    (event : StripeEvent) (rows : List OrderRow) :
    WebhookResponse × List OrderRow :=
  let _ := signature
  if event.type = "checkout.session.completed" then
    (WebhookResponse.received, saveOrderToSheet now event.object rows)
  else
    (WebhookResponse.received, rows)

/-! ## Status Reader (`getOrderStatus`) -/

/-- Response of `getOrderStatus`: `{status:'success', order}` or
`{error: 'Order not found'}`. -/
inductive StatusResponse where
  | success (order : OrderView)
  | error (msg : String)
deriving DecidableEq

/-- Read a row back into the order object returned to the client
(`data[6] || ''` on the tracking cell). -/
def orderOfRow (r : OrderRow) : OrderView :=
  { sessionId := r.sessionId
    email := r.email
    date := r.date
    status := r.status
    items := r.items
    shippingAddress := r.shippingAddress
    trackingNumber := jsOrStr r.trackingNumber ""
    emailSent := r.emailSent
    lastUpdated := r.lastUpdated }

/-- The source `getOrderStatus`: locate the row by session id, read the
nine cells back, or report `Order not found`. The fallback branch for a
positive row number with no backing data is unreachable (see
`findOrderRowAux_pos_get`). -/
def getOrderStatus (sessionId : String) (rows : List OrderRow) : StatusResponse :=
  let row := findOrderRow rows sessionId
  if row ≤ 0 then StatusResponse.error "Order not found"
  else
    match rows[row - 2]? with
    | some r => StatusResponse.success (orderOfRow r)
    | none => StatusResponse.error "Order not found"

/-! ## Notification Dispatcher (`sendTrackingEmails`) -/

/-- An email handed to the mail transport; the fields are the values
interpolated into the fixed subject/body template of
`sendTrackingEmail`. -/
structure EmailMessage where
  recipient : String
  subject : String
  orderId : String
  trackingNumber : String
  trackingUrl : String
  status : String
deriving DecidableEq

/-- The source `sendTrackingEmail`: builds the message and calls
`MailApp.sendEmail`. A transport failure (`sendOk = false`) is caught
inside the function, only logged, and control returns normally, so the
caller cannot observe it; the delivered-mail log gains an entry only on
success. -/
def sendTrackingEmail (sendOk : Bool) (email sessionId trackingNumber status : String) :
    List EmailMessage :=
  if sendOk then
    [{ recipient := email
       subject := "Your Agroverse Order Has Shipped!"
       orderId := sessionId
       trackingNumber := trackingNumber
       trackingUrl := getTrackingUrl trackingNumber
       status := status }]
  else []

/-- Per-row eligibility test of the dispatcher scan:
`trackingNumber && trackingNumber.trim() && emailSent !== 'Yes'`. -/
def eligibleForEmail (r : OrderRow) : Bool :=
  !(r.trackingNumber == "") && !(jsTrim r.trackingNumber == "") &&
    !(r.emailSent == "Yes")

/-- Cell updates performed after the send call: column 8 set to `Yes`,
column 9 set to the current timestamp. -/
def markEmailSent (now : String) (r : OrderRow) : OrderRow :=
  { r with emailSent := "Yes", lastUpdated := now }

/-- The source `sendTrackingEmails` scan: iterate the snapshot, and for
each eligible row call `sendTrackingEmail` (whose failures it cannot
observe) and then unconditionally mark the row as sent. `sendOk` tells
whether the mail transport succeeds for a given row. Returns the final
sheet and the log of delivered emails. -/
def sendTrackingEmails (sendOk : OrderRow → Bool) (now : String) :
    List OrderRow → List OrderRow × List EmailMessage
  | [] => ([], [])
  | r :: rest =>
    let tail := sendTrackingEmails sendOk now rest
    if eligibleForEmail r then
      (markEmailSent now r :: tail.1,
        sendTrackingEmail (sendOk r) r.email r.sessionId r.trackingNumber r.status
          ++ tail.2)
    else
      (r :: tail.1, tail.2)

/-- What one dispatcher pass does to a single row (the scan is proved
equal to mapping this over the snapshot in `sendTrackingEmails_fst`). -/
def dispatchRow (now : String) (r : OrderRow) : OrderRow :=
  if eligibleForEmail r then markEmailSent now r else r

/-! ## Session Gateway (`createCheckoutSession`) -/

/-- One cart line as sent by the checkout page. -/
structure CheckoutItem where
  stripePriceId : String
  quantity : Nat
deriving DecidableEq

/-- The cart snapshot of a session-creation request; both the cart and
its `items` field may be absent in the raw JSON. -/
structure CartData where
  sessionId : Option String
  items : Option (List CheckoutItem)
deriving DecidableEq

/-- The shipping address of a session-creation request. -/
structure RequestAddress where
  address : String
  city : String
  state : String
  zip : String
  country : Option String
deriving DecidableEq

/-- A `createCheckoutSession` request body. -/
structure CheckoutRequest where
  cart : Option CartData
  shippingAddress : Option RequestAddress
  environment : Option String
deriving DecidableEq

/-- The form payload posted to the Stripe sessions endpoint (the fields
the source assembles; `shipping_address` replaces the collection flags
when the request carried an address). -/
structure StripePayload where
  mode : String
  line_items : List (String × Nat)
  success_url : String
  cancel_url : String
  shipping_address : Option (String × String × String × String × String)
  metadata_cartSessionId : String
  metadata_environment : String
deriving DecidableEq

/-- Outcome of the external Stripe call as parsed by the source. -/
inductive StripeApiResult where
  | ok (url : String) (id : String)
  | apiError (message : String)
deriving DecidableEq

/-- Response of `createCheckoutSession`:
`{checkoutUrl, sessionId}` or `{error}`. -/
inductive CheckoutResponse where
  | ok (checkoutUrl : String) (sessionId : String)
  | error (msg : String)
deriving DecidableEq

/-- The source `createCheckoutSession`. The external processor is an
oracle `stripe`; the second component logs every payload actually
posted to it. An empty or missing cart throws `Cart is empty`, which
the surrounding catch serializes as `Error: Cart is empty`, before any
external call. -/
def createCheckoutSession (stripe : StripePayload → StripeApiResult)
    (data : CheckoutRequest) : CheckoutResponse × List StripePayload :=
  match data.cart with
  | none => (CheckoutResponse.error "Error: Cart is empty", [])
  | some cart =>
    match cart.items with
    | none => (CheckoutResponse.error "Error: Cart is empty", [])
    | some items =>
      if items.length = 0 then
        (CheckoutResponse.error "Error: Cart is empty", [])
      else
        let environment := jsOr data.environment "production"
        let baseUrl := if environment = "development" then
            "http://127.0.0.1:8000" else "https://www.agroverse.shop"
        let payload : StripePayload :=
          { mode := "payment"
            line_items := items.map fun item => (item.stripePriceId, item.quantity)
            success_url := baseUrl ++ "/order-status?session_id={CHECKOUT_SESSION_ID}"
            cancel_url := baseUrl ++ "/checkout"
            shipping_address := data.shippingAddress.map fun a =>
              (a.address, a.city, a.state, a.zip, jsOr a.country "US")
            metadata_cartSessionId := jsOr cart.sessionId ""
            metadata_environment := environment }
        match stripe payload with
        | StripeApiResult.apiError msg =>
          (CheckoutResponse.error ("Error: " ++ msg), [payload])
        | StripeApiResult.ok url id => (CheckoutResponse.ok url id, [payload])

/-! ## Core operations and counting helpers -/

/-- The operations of the core that touch the Orders sheet. -/
inductive CoreOp where
  | webhook (now : String) (signature : String) (event : StripeEvent)
  | statusQuery (sessionId : String)
  | dispatch (sendOk : OrderRow → Bool) (now : String)

/-- Effect of a core operation on the sheet (`getOrderStatus` performs
reads only, so its effect is the identity). -/
def applyCoreOp : CoreOp → List OrderRow → List OrderRow
  | CoreOp.webhook now sig event, rows => (handleStripeWebhook now sig event rows).2
  | CoreOp.statusQuery _, rows => rows
  | CoreOp.dispatch sendOk now, rows => (sendTrackingEmails sendOk now rows).1

/-- Number of rows keyed by a given transaction id. -/
def countId (rows : List OrderRow) (sessionId : String) : Nat :=
  rows.countP fun r => r.sessionId == sessionId

/-- Number of delivered emails belonging to a given order. -/
def countEmailsTo (msgs : List EmailMessage) (sessionId : String) : Nat :=
  msgs.countP fun m => m.orderId == sessionId

/-- Sequential redelivery of one webhook event, once per
(timestamp, signature) pair in the list. -/
def deliverTimes (event : StripeEvent) :
    List (String × String) → List OrderRow → List OrderRow
  | [], rows => rows
  | (now, sig) :: rest, rows =>
    deliverTimes event rest (handleStripeWebhook now sig event rows).2

/-! ## Store lemmas -/

theorem countId_eq_zero (rows : List OrderRow) (sid : String) :
    countId rows sid = 0 ↔ ∀ r ∈ rows, r.sessionId ≠ sid := by
  simp [countId, List.countP_eq_zero]

theorem findOrderRowAux_eq_zero (sid : String) (rows : List OrderRow) :
    ∀ i, (findOrderRowAux sid rows i = 0 ↔ ∀ r ∈ rows, r.sessionId ≠ sid) := by
  induction rows with
  | nil => intro i; simp [findOrderRowAux]
  | cons r rest ih =>
    intro i
    by_cases h : r.sessionId = sid
    · simp [findOrderRowAux, h]
    · simp [findOrderRowAux, h, ih (i + 1)]

theorem findOrderRow_eq_zero (rows : List OrderRow) (sid : String) :
    findOrderRow rows sid = 0 ↔ countId rows sid = 0 := by
  rw [findOrderRow, findOrderRowAux_eq_zero, countId_eq_zero]

theorem saveOrder_of_present (now : String) (session : StripeSession)
    (rows : List OrderRow) (h : countId rows session.id ≠ 0) :
    saveOrderToSheet now session rows = rows := by
  have hf : findOrderRow rows session.id ≠ 0 := by
    intro h0
    exact h ((findOrderRow_eq_zero rows session.id).mp h0)
  simp [saveOrderToSheet, Nat.pos_of_ne_zero hf]

theorem saveOrder_of_fresh (now : String) (session : StripeSession)
    (rows : List OrderRow) (h : countId rows session.id = 0) :
    saveOrderToSheet now session rows = rows ++ [rowFromSession now session] := by
  have hf : findOrderRow rows session.id = 0 :=
    (findOrderRow_eq_zero rows session.id).mpr h
  simp [saveOrderToSheet, hf]

theorem countId_append (l1 l2 : List OrderRow) (sid : String) :
    countId (l1 ++ l2) sid = countId l1 sid + countId l2 sid :=
  List.countP_append _ l1 l2

theorem countId_after_insert (now : String) (session : StripeSession)
    (rows : List OrderRow) (h : countId rows session.id = 0) :
    countId (saveOrderToSheet now session rows) session.id = 1 := by
  rw [saveOrder_of_fresh now session rows h, countId_append, h]
  simp [countId, rowFromSession]

theorem webhook_completed (now sig : String) (event : StripeEvent)
    (rows : List OrderRow) (h : event.type = "checkout.session.completed") :
    handleStripeWebhook now sig event rows =
      (WebhookResponse.received, saveOrderToSheet now event.object rows) := by
  simp [handleStripeWebhook, h]

theorem webhook_other (now sig : String) (event : StripeEvent)
    (rows : List OrderRow) (h : event.type ≠ "checkout.session.completed") :
    handleStripeWebhook now sig event rows = (WebhookResponse.received, rows) := by
  simp [handleStripeWebhook, h]

theorem deliverTimes_of_one (event : StripeEvent) (rows : List OrderRow)
    (h : countId rows event.object.id = 1) :
    ∀ ts, deliverTimes event ts rows = rows := by
  intro ts
  induction ts with
  | nil => rfl
  | cons p rest ih =>
    obtain ⟨now, sig⟩ := p
    have hsave : ∀ n, saveOrderToSheet n event.object rows = rows := fun n =>
      saveOrder_of_present n event.object rows (by rw [h]; exact Nat.one_ne_zero)
    show deliverTimes event rest (handleStripeWebhook now sig event rows).2 = rows
    by_cases ht : event.type = "checkout.session.completed"
    · rw [webhook_completed now sig event rows ht]
      rw [show (WebhookResponse.received, saveOrderToSheet now event.object rows).2 =
        saveOrderToSheet now event.object rows from rfl, hsave now]
      exact ih
    · rw [webhook_other now sig event rows ht]
      exact ih

/-! ## Status-reader lemmas -/

theorem findOrderRowAux_append_fresh (sid : String) (rows : List OrderRow)
    (r : OrderRow) (hfresh : ∀ x ∈ rows, x.sessionId ≠ sid)
    (hr : r.sessionId = sid) :
    ∀ i, findOrderRowAux sid (rows ++ [r]) i = i + rows.length + 1 := by
  induction rows with
  | nil => intro i; simp [findOrderRowAux, hr]
  | cons x xs ih =>
    intro i
    have hx : x.sessionId ≠ sid := hfresh x (by simp)
    have ihs := ih (fun y hy => hfresh y (by simp [hy])) (i + 1)
    simp only [List.cons_append, findOrderRowAux, if_neg hx, List.append_eq, ihs,
      List.length_cons]
    omega

theorem getOrderStatus_insert (rows : List OrderRow) (r : OrderRow)
    (h : countId rows r.sessionId = 0) :
    getOrderStatus r.sessionId (rows ++ [r]) =
      StatusResponse.success (orderOfRow r) := by
  have hfresh : ∀ x ∈ rows, x.sessionId ≠ r.sessionId :=
    (countId_eq_zero rows r.sessionId).mp h
  have hfind : findOrderRow (rows ++ [r]) r.sessionId = rows.length + 2 := by
    rw [findOrderRow, findOrderRowAux_append_fresh r.sessionId rows r hfresh rfl 1]
    omega
  rw [getOrderStatus, hfind]
  have h2 : ¬ rows.length + 2 ≤ 0 := by omega
  simp only [if_neg h2, Nat.add_sub_cancel]
  rw [List.getElem?_concat_length]

theorem getOrderStatus_notFound (rows : List OrderRow) (sid : String)
    (h : countId rows sid = 0) :
    getOrderStatus sid rows = StatusResponse.error "Order not found" := by
  have hfind : findOrderRow rows sid = 0 :=
    (findOrderRow_eq_zero rows sid).mpr h
  rw [getOrderStatus, hfind]
  simp

/-! ## Dispatcher lemmas -/

theorem sendTrackingEmails_fst (sendOk : OrderRow → Bool) (now : String)
    (rows : List OrderRow) :
    (sendTrackingEmails sendOk now rows).1 = rows.map (dispatchRow now) := by
  induction rows with
  | nil => rfl
  | cons r rest ih =>
    by_cases h : eligibleForEmail r = true
    · simp [sendTrackingEmails, h, dispatchRow, ih]
    · simp only [Bool.not_eq_true] at h
      simp [sendTrackingEmails, h, dispatchRow, ih]

theorem countEmailsTo_append (m1 m2 : List EmailMessage) (sid : String) :
    countEmailsTo (m1 ++ m2) sid = countEmailsTo m1 sid + countEmailsTo m2 sid :=
  List.countP_append _ m1 m2

theorem sendTrackingEmails_snd_count (sendOk : OrderRow → Bool) (now : String)
    (rows : List OrderRow) (sid : String) :
    countEmailsTo (sendTrackingEmails sendOk now rows).2 sid =
      rows.countP fun r => eligibleForEmail r && sendOk r && (r.sessionId == sid) := by
  induction rows with
  | nil => rfl
  | cons r rest ih =>
    by_cases he : eligibleForEmail r = true
    · simp only [sendTrackingEmails, he, if_true, List.countP_cons, ih,
        countEmailsTo_append]
      by_cases hs : sendOk r = true
      · simp only [sendTrackingEmail, hs, if_true, he, Bool.true_and]
        by_cases hm : (r.sessionId == sid) = true
        · simp [countEmailsTo, hm, Nat.add_comm]
        · simp only [Bool.not_eq_true] at hm
          simp [countEmailsTo, hm]
      · simp only [Bool.not_eq_true] at hs
        simp [sendTrackingEmail, hs, he, countEmailsTo]
    · simp only [Bool.not_eq_true] at he
      simp [sendTrackingEmails, he, List.countP_cons, ih]

theorem dispatchRow_sessionId (now : String) (r : OrderRow) :
    (dispatchRow now r).sessionId = r.sessionId := by
  unfold dispatchRow
  by_cases h : eligibleForEmail r = true <;> simp [h, markEmailSent]

theorem dispatchRow_of_yes (now : String) (r : OrderRow)
    (h : r.emailSent = "Yes") : dispatchRow now r = r := by
  have : eligibleForEmail r = false := by
    simp [eligibleForEmail, h]
  simp [dispatchRow, this]

theorem countId_map_dispatch (now : String) (rows : List OrderRow) (sid : String) :
    countId (rows.map (dispatchRow now)) sid = countId rows sid := by
  rw [countId, List.countP_map]
  exact List.countP_congr fun r _ => by
    simp [Function.comp, dispatchRow_sessionId]

theorem emailSent_yes_preserved (op : CoreOp) (s : List OrderRow) (j : Nat)
    (q : OrderRow) (h1 : s[j]? = some q) (h2 : q.emailSent = "Yes") :
    (applyCoreOp op s)[j]?.map OrderRow.emailSent = some "Yes" ∧
      (applyCoreOp op s)[j]?.map OrderRow.sessionId = some q.sessionId := by
  have hj : j < s.length := by
    rcases List.getElem?_eq_some.mp h1 with ⟨hlt, _⟩
    exact hlt
  cases op with
  | statusQuery sid => simp [applyCoreOp, h1, h2]
  | dispatch sendOk now =>
    simp only [applyCoreOp, sendTrackingEmails_fst, List.getElem?_map, h1]
    simp [dispatchRow_of_yes now q h2, h2]
  | webhook now sig event =>
    simp only [applyCoreOp, handleStripeWebhook]
    by_cases ht : event.type = "checkout.session.completed"
    · simp only [ht, if_true]
      unfold saveOrderToSheet
      by_cases hf : findOrderRow s event.object.id > 0
      · simp [hf, h1, h2]
      · simp only [hf, if_false]
        rw [List.getElem?_append_left hj, h1]
        simp [h2]
    · simp [ht, h1, h2]

/-! ## Claim theorems -/

/-- C1. Idempotent ingestion: delivering a completion event `N ≥ 1`
times sequentially to the webhook ingestor leaves the store with
exactly one order row keyed by the event's transaction id, and any
further delivery of the same event returns the acknowledgement and
leaves the store exactly unchanged (the store is the ingestor's only
observable effect in this model; logging is not observable). -/
theorem ingestion_idempotent (event : StripeEvent) (ts : List (String × String))
    (rows : List OrderRow) (now sig : String)
    (htype : event.type = "checkout.session.completed")
    (hfresh : countId rows event.object.id = 0) (hts : ts ≠ []) :
    countId (deliverTimes event ts rows) event.object.id = 1 ∧
    handleStripeWebhook now sig event (deliverTimes event ts rows) =
      (WebhookResponse.received, deliverTimes event ts rows) := by
  obtain ⟨n0, s0, rest, rfl⟩ : ∃ n0 s0 rest, ts = (n0, s0) :: rest := by
    cases ts with
    | nil => exact absurd rfl hts
    | cons p rest => exact ⟨p.1, p.2, rest, by rw [Prod.mk.eta]⟩
  have hstep : (handleStripeWebhook n0 s0 event rows).2 =
      saveOrderToSheet n0 event.object rows := by
    rw [webhook_completed n0 s0 event rows htype]
  have hcount : countId (saveOrderToSheet n0 event.object rows) event.object.id = 1 :=
    countId_after_insert n0 event.object rows hfresh
  have hfinal : deliverTimes event ((n0, s0) :: rest) rows =
      saveOrderToSheet n0 event.object rows := by
    show deliverTimes event rest (handleStripeWebhook n0 s0 event rows).2 = _
    rw [hstep, deliverTimes_of_one event _ hcount rest]
  refine ⟨by rw [hfinal]; exact hcount, ?_⟩
  rw [hfinal, webhook_completed now sig event _ htype,
    saveOrder_of_present now event.object _ (by rw [hcount]; exact Nat.one_ne_zero)]

/-- Completion event used to instantiate the idempotent-ingestion
claim. -/
def eventTx1 : StripeEvent :=
  { type := "checkout.session.completed"
    object := { id := "tx_idem", customer_details := some ({ email := some "a@b.com" }),
                customer_email := none, shipping_details := none,
                display_items := none } }

/-- Witness for `ingestion_idempotent`: two deliveries into an empty
store leave one row for `tx_idem`, and a third delivery is a no-op. -/
theorem ingestion_idempotent_witness :
    countId (deliverTimes eventTx1 [("t1", "s1"), ("t2", "s2")] []) "tx_idem" = 1 ∧
    handleStripeWebhook "t3" "s3" eventTx1
        (deliverTimes eventTx1 [("t1", "s1"), ("t2", "s2")] []) =
      (WebhookResponse.received, deliverTimes eventTx1 [("t1", "s1"), ("t2", "s2")] []) :=
  ingestion_idempotent eventTx1 [("t1", "s1"), ("t2", "s2")] [] "t3" "s3" rfl rfl
    (by decide)

/-- C8. Ingestion defaults: a record created by the ingestor from a
fresh completed session is appended with status `Placed`, empty
tracking number, email-sent flag `No` (notified = false), the
transaction id of the event, and the customer email extracted from the
event payload. -/
theorem ingestion_defaults (now : String) (session : StripeSession)
    (rows : List OrderRow) (hfresh : countId rows session.id = 0) :
    saveOrderToSheet now session rows = rows ++ [rowFromSession now session] ∧
    (rowFromSession now session).status = "Placed" ∧
    (rowFromSession now session).trackingNumber = "" ∧
    (rowFromSession now session).emailSent = "No" ∧
    (rowFromSession now session).sessionId = session.id ∧
    (rowFromSession now session).email = customerEmailOf session ∧
    (rowFromSession now session).items = itemsOf session :=
  ⟨saveOrder_of_fresh now session rows hfresh, rfl, rfl, rfl, rfl, rfl, rfl⟩

/-- Session used to instantiate the ingestion-defaults claim
(the spec scenario `tx_1` / `a@b.com` / one Cacao line item). -/
def sessionTx1 : StripeSession :=
  { id := "tx_1", customer_details := some ({ email := some "a@b.com" }),
    customer_email := none, shipping_details := none,
    display_items := some [({ custom := some ({ name := some "Cacao" }),
                              description := none, quantity := some 2,
                              amount := some 2500 })] }

/-- Witness for `ingestion_defaults` on the spec scenario event. -/
theorem ingestion_defaults_witness :
    saveOrderToSheet "2024-01-01T00:00:00Z" sessionTx1 [] =
      [rowFromSession "2024-01-01T00:00:00Z" sessionTx1] ∧
    (rowFromSession "2024-01-01T00:00:00Z" sessionTx1).status = "Placed" ∧
    (rowFromSession "2024-01-01T00:00:00Z" sessionTx1).trackingNumber = "" ∧
    (rowFromSession "2024-01-01T00:00:00Z" sessionTx1).emailSent = "No" ∧
    (rowFromSession "2024-01-01T00:00:00Z" sessionTx1).sessionId = "tx_1" ∧
    (rowFromSession "2024-01-01T00:00:00Z" sessionTx1).email = "a@b.com" ∧
    (rowFromSession "2024-01-01T00:00:00Z" sessionTx1).items = itemsOf sessionTx1 := by
  have h := ingestion_defaults "2024-01-01T00:00:00Z" sessionTx1 [] rfl
  exact ⟨h.1, h.2.1, h.2.2.1, h.2.2.2.1, h.2.2.2.2.1, h.2.2.2.2.2.1, h.2.2.2.2.2.2⟩

/-- C9. Non-completion events are acknowledged with the success
response and leave the store entirely unchanged. -/
theorem non_completion_acknowledged_unchanged (now sig : String)
    (event : StripeEvent) (rows : List OrderRow)
    (h : event.type ≠ "checkout.session.completed") :
    handleStripeWebhook now sig event rows = (WebhookResponse.received, rows) :=
  webhook_other now sig event rows h

/-- Witness for `non_completion_acknowledged_unchanged` on a
`payment_intent.succeeded` event against a one-row store. -/
theorem non_completion_acknowledged_unchanged_witness :
    handleStripeWebhook "t1" "s1"
        { type := "payment_intent.succeeded",
          object := { id := "tx_other", customer_details := none,
                      customer_email := none, shipping_details := none,
                      display_items := none } }
        [rowFromSession "t0" eventTx1.object] =
      (WebhookResponse.received, [rowFromSession "t0" eventTx1.object]) :=
  non_completion_acknowledged_unchanged "t1" "s1" _ _ (by decide)

/-- C3. Code divergence on webhook authenticity: the handler reads the
`stripe-signature` parameter but never verifies it (the source comment
says verification should be implemented), so a completed event carried
with an arbitrary, unverifiable signature is not rejected: it is
acknowledged as received and the store is mutated with a new row. The
spec requires rejection with `Unauthenticated` and no store mutation. -/
theorem webhook_accepts_unverified_signature :
    handleStripeWebhook "2024-01-01T00:00:00Z" "invalid-signature"
        { type := "checkout.session.completed",
          object := { id := "tx_forged", customer_details := none,
                      customer_email := none, shipping_details := none,
                      display_items := none } } [] =
      (WebhookResponse.received,
        [rowFromSession "2024-01-01T00:00:00Z"
          { id := "tx_forged", customer_details := none, customer_email := none,
            shipping_details := none, display_items := none }]) := rfl

/-- C6. Status read reflects the latest write: after a fresh ingestion
the status query for the same reference returns the success response
holding exactly the just-inserted record (the read-back view reproduces
every stored field); a reference present in no row yields the
`Order not found` error; and the status query mutates nothing. -/
theorem status_read_reflects_insert (now : String) (session : StripeSession)
    (rows : List OrderRow) (ref : String)
    (hfresh : countId rows session.id = 0)
    (hmiss : countId (saveOrderToSheet now session rows) ref = 0) :
    getOrderStatus session.id (saveOrderToSheet now session rows) =
      StatusResponse.success (orderOfRow (rowFromSession now session)) ∧
    orderOfRow (rowFromSession now session) =
      { sessionId := (rowFromSession now session).sessionId
        email := (rowFromSession now session).email
        date := (rowFromSession now session).date
        status := (rowFromSession now session).status
        items := (rowFromSession now session).items
        shippingAddress := (rowFromSession now session).shippingAddress
        trackingNumber := (rowFromSession now session).trackingNumber
        emailSent := (rowFromSession now session).emailSent
        lastUpdated := (rowFromSession now session).lastUpdated } ∧
    getOrderStatus ref (saveOrderToSheet now session rows) =
      StatusResponse.error "Order not found" ∧
    applyCoreOp (CoreOp.statusQuery session.id) (saveOrderToSheet now session rows) =
      saveOrderToSheet now session rows := by
  refine ⟨?_, rfl, getOrderStatus_notFound _ ref hmiss, rfl⟩
  rw [saveOrder_of_fresh now session rows hfresh]
  exact getOrderStatus_insert rows (rowFromSession now session) hfresh

/-- Witness for `status_read_reflects_insert`: insert `tx_1` into an
empty store, read it back, and observe `NotFound` for `tx_absent`. -/
theorem status_read_reflects_insert_witness :
    getOrderStatus "tx_1" (saveOrderToSheet "t0" sessionTx1 []) =
      StatusResponse.success (orderOfRow (rowFromSession "t0" sessionTx1)) ∧
    orderOfRow (rowFromSession "t0" sessionTx1) =
      { sessionId := (rowFromSession "t0" sessionTx1).sessionId
        email := (rowFromSession "t0" sessionTx1).email
        date := (rowFromSession "t0" sessionTx1).date
        status := (rowFromSession "t0" sessionTx1).status
        items := (rowFromSession "t0" sessionTx1).items
        shippingAddress := (rowFromSession "t0" sessionTx1).shippingAddress
        trackingNumber := (rowFromSession "t0" sessionTx1).trackingNumber
        emailSent := (rowFromSession "t0" sessionTx1).emailSent
        lastUpdated := (rowFromSession "t0" sessionTx1).lastUpdated } ∧
    getOrderStatus "tx_absent" (saveOrderToSheet "t0" sessionTx1 []) =
      StatusResponse.error "Order not found" ∧
    applyCoreOp (CoreOp.statusQuery "tx_1") (saveOrderToSheet "t0" sessionTx1 []) =
      saveOrderToSheet "t0" sessionTx1 [] :=
  status_read_reflects_insert "t0" sessionTx1 [] "tx_absent" rfl (by decide)

/-- Row whose tracking cell holds a single space: non-empty, yet the
dispatcher's `trackingNumber.trim()` truthiness test skips it forever. -/
def spaceTrackedRow : OrderRow :=
  { sessionId := "tx_ws", email := "c@d.e", date := "t0", status := "Placed",
    items := [],
    shippingAddress := { fullName := "", address := "", city := "", state := "",
                         zip := "", country := "US" },
    trackingNumber := " ", emailSent := "No", lastUpdated := "t0" }

/-- C2 counterexample: a record with a non-empty (all-whitespace)
tracking number and `notified = false` is never notified: a dispatcher
run with a fully working mail transport sends nothing and flips
nothing, contradicting the claim that exactly one run sends and flips
for every record with a non-empty tracking number. -/
theorem dispatcher_skips_blank_tracking :
    spaceTrackedRow.trackingNumber ≠ "" ∧ spaceTrackedRow.emailSent = "No" ∧
    sendTrackingEmails (fun _ => true) "t1" [spaceTrackedRow] =
      ([spaceTrackedRow], []) := by decide

/-- C2 (amended: the premise `trackingNumber` non-empty is strengthened
to non-blank, i.e. non-empty after trimming). For the unique record `r`
with its id, with non-blank tracking and `notified = false`, under
normal operation (mail transport succeeding): the first dispatcher run
marks exactly that record `Yes` in place and delivers exactly one email
for it; a second run keeps the record exactly as the first run left it
and delivers no further email for it; and no core operation ever turns
an `emailSent = "Yes"` record back (the flag and the id at its position
are preserved by every webhook, status query, and dispatcher run). -/
theorem dispatcher_exactly_once (now1 now2 : String) (l1 l2 : List OrderRow)
    (r : OrderRow) (op : CoreOp) (s : List OrderRow) (j : Nat) (q : OrderRow)
    (htrim : jsTrim r.trackingNumber ≠ "") (hnot : r.emailSent ≠ "Yes")
    (hl1 : countId l1 r.sessionId = 0) (hl2 : countId l2 r.sessionId = 0)
    (hq1 : s[j]? = some q) (hq2 : q.emailSent = "Yes") :
    (sendTrackingEmails (fun _ => true) now1 (l1 ++ r :: l2)).1 =
      l1.map (dispatchRow now1) ++
        markEmailSent now1 r :: l2.map (dispatchRow now1) ∧
    (markEmailSent now1 r).emailSent = "Yes" ∧
    countEmailsTo (sendTrackingEmails (fun _ => true) now1 (l1 ++ r :: l2)).2
      r.sessionId = 1 ∧
    (sendTrackingEmails (fun _ => true) now2
        (l1.map (dispatchRow now1) ++
          markEmailSent now1 r :: l2.map (dispatchRow now1))).1 =
      (l1.map (dispatchRow now1)).map (dispatchRow now2) ++
        markEmailSent now1 r ::
          (l2.map (dispatchRow now1)).map (dispatchRow now2) ∧
    countEmailsTo (sendTrackingEmails (fun _ => true) now2
        (l1.map (dispatchRow now1) ++
          markEmailSent now1 r :: l2.map (dispatchRow now1))).2
      r.sessionId = 0 ∧
    (applyCoreOp op s)[j]?.map OrderRow.emailSent = some "Yes" ∧
    (applyCoreOp op s)[j]?.map OrderRow.sessionId = some q.sessionId := by
  have htn : r.trackingNumber ≠ "" := by
    intro h0
    exact htrim (by rw [h0]; decide)
  have helig : eligibleForEmail r = true := by
    simp [eligibleForEmail, htn, htrim, hnot]
  have hdr : dispatchRow now1 r = markEmailSent now1 r := by
    simp [dispatchRow, helig]
  have hcount1 : ∀ (l : List OrderRow) (now : String),
      countId l r.sessionId = 0 →
      countEmailsTo (sendTrackingEmails (fun _ => true) now l).2 r.sessionId = 0 := by
    intro l now hz
    rw [sendTrackingEmails_snd_count]
    refine List.countP_eq_zero.mpr fun x hx => ?_
    have hxne : x.sessionId ≠ r.sessionId := (countId_eq_zero l r.sessionId).mp hz x hx
    simp [hxne]
  refine ⟨?_, rfl, ?_, ?_, ?_,
    (emailSent_yes_preserved op s j q hq1 hq2).1,
    (emailSent_yes_preserved op s j q hq1 hq2).2⟩
  · rw [sendTrackingEmails_fst, List.map_append, List.map_cons, hdr]
  · rw [sendTrackingEmails_snd_count, List.countP_append, List.countP_cons]
    have hz1 : l1.countP
        (fun x => eligibleForEmail x && (fun _ => true) x && (x.sessionId == r.sessionId)) = 0 := by
      refine List.countP_eq_zero.mpr fun x hx => ?_
      have hxne : x.sessionId ≠ r.sessionId := (countId_eq_zero l1 r.sessionId).mp hl1 x hx
      simp [hxne]
    have hz2 : l2.countP
        (fun x => eligibleForEmail x && (fun _ => true) x && (x.sessionId == r.sessionId)) = 0 := by
      refine List.countP_eq_zero.mpr fun x hx => ?_
      have hxne : x.sessionId ≠ r.sessionId := (countId_eq_zero l2 r.sessionId).mp hl2 x hx
      simp [hxne]
    rw [hz1, hz2]
    simp [helig]
  · rw [sendTrackingEmails_fst, List.map_append, List.map_cons,
      dispatchRow_of_yes now2 (markEmailSent now1 r) rfl]
  · rw [sendTrackingEmails_snd_count, List.countP_append, List.countP_cons]
    have hz1 : (l1.map (dispatchRow now1)).countP
        (fun x => eligibleForEmail x && (fun _ => true) x && (x.sessionId == r.sessionId)) = 0 := by
      refine List.countP_eq_zero.mpr fun x hx => ?_
      rcases List.mem_map.mp hx with ⟨y, hy, rfl⟩
      have hyne : y.sessionId ≠ r.sessionId := (countId_eq_zero l1 r.sessionId).mp hl1 y hy
      simp [dispatchRow_sessionId, hyne]
    have hz2 : (l2.map (dispatchRow now1)).countP
        (fun x => eligibleForEmail x && (fun _ => true) x && (x.sessionId == r.sessionId)) = 0 := by
      refine List.countP_eq_zero.mpr fun x hx => ?_
      rcases List.mem_map.mp hx with ⟨y, hy, rfl⟩
      have hyne : y.sessionId ≠ r.sessionId := (countId_eq_zero l2 r.sessionId).mp hl2 y hy
      simp [dispatchRow_sessionId, hyne]
    have hmid : eligibleForEmail (markEmailSent now1 r) = false := by
      simp [eligibleForEmail, markEmailSent]
    rw [hz1, hz2]
    simp [hmid]

/-- Tracked, not-yet-notified record used to instantiate the
exactly-once dispatcher claim. -/
def trackedRow : OrderRow :=
  { sessionId := "tx_c2", email := "a@b.com", date := "t0", status := "Shipped",
    items := [],
    shippingAddress := { fullName := "", address := "", city := "", state := "",
                         zip := "", country := "US" },
    trackingNumber := "1Z999AA10123456784", emailSent := "No", lastUpdated := "t0" }

/-- Witness for `dispatcher_exactly_once` on a one-row store holding
`trackedRow`, with the never-reverts clause instantiated at a second
dispatcher run over the already-marked store. -/
theorem dispatcher_exactly_once_witness :
    (sendTrackingEmails (fun _ => true) "t1" [trackedRow]).1 =
      [markEmailSent "t1" trackedRow] ∧
    (markEmailSent "t1" trackedRow).emailSent = "Yes" ∧
    countEmailsTo (sendTrackingEmails (fun _ => true) "t1" [trackedRow]).2
      "tx_c2" = 1 ∧
    (sendTrackingEmails (fun _ => true) "t2" [markEmailSent "t1" trackedRow]).1 =
      [markEmailSent "t1" trackedRow] ∧
    countEmailsTo (sendTrackingEmails (fun _ => true) "t2"
        [markEmailSent "t1" trackedRow]).2 "tx_c2" = 0 ∧
    (applyCoreOp (CoreOp.dispatch (fun _ => true) "t3")
        [markEmailSent "t1" trackedRow])[0]?.map OrderRow.emailSent = some "Yes" ∧
    (applyCoreOp (CoreOp.dispatch (fun _ => true) "t3")
        [markEmailSent "t1" trackedRow])[0]?.map OrderRow.sessionId =
      some "tx_c2" :=
  dispatcher_exactly_once "t1" "t2" [] [] trackedRow
    (CoreOp.dispatch (fun _ => true) "t3") [markEmailSent "t1" trackedRow] 0
    (markEmailSent "t1" trackedRow) (by decide) (by decide) rfl rfl rfl rfl

/-- Tracked record whose customer address makes the mail transport
fail, used for the send-failure claim. -/
def failingSendRow : OrderRow :=
  { sessionId := "tx_fail", email := "bad@x.y", date := "t0", status := "Shipped",
    items := [],
    shippingAddress := { fullName := "", address := "", city := "", state := "",
                         zip := "", country := "US" },
    trackingNumber := "1Z999AA10123456784", emailSent := "No", lastUpdated := "t0" }

/-- C4 counterexample: when the send fails for an eligible record, the
run delivers no email yet still sets the record's email-sent flag to
`Yes` (because `sendTrackingEmail` catches the transport error
internally), and the marked record is no longer eligible, so no later
run retries it — contradicting the claim that the flag is left false
for retry. -/
theorem failed_send_still_marked :
    (sendTrackingEmails (fun _ => false) "t1" [failingSendRow]).2 = [] ∧
    (sendTrackingEmails (fun _ => false) "t1" [failingSendRow]).1.map
      OrderRow.emailSent = ["Yes"] ∧
    eligibleForEmail (markEmailSent "t1" failingSendRow) = false := by decide

/-- C4 (amended: failures are swallowed and the scan continues, but the
record is marked notified regardless of send success, so it is not
retried). For any transport behaviour `sendOk`, the resulting sheet is
the per-row marking map — independent of which sends failed, so one bad
address never blocks the rest of the scan and every eligible record
ends marked `Yes` — the delivered mail is exactly the per-row output of
`sendTrackingEmail`, and a failed send delivers nothing. -/
theorem send_failure_swallowed_but_marked (sendOk : OrderRow → Bool)
    (now : String) (rows : List OrderRow) (r : OrderRow)
    (helig : eligibleForEmail r = true) :
    (sendTrackingEmails sendOk now rows).1 = rows.map (dispatchRow now) ∧
    (sendTrackingEmails sendOk now rows).2 = rows.flatMap
      (fun x => if eligibleForEmail x then
        sendTrackingEmail (sendOk x) x.email x.sessionId x.trackingNumber x.status
      else []) ∧
    (dispatchRow now r).emailSent = "Yes" ∧
    sendTrackingEmail false r.email r.sessionId r.trackingNumber r.status = [] := by
  refine ⟨sendTrackingEmails_fst sendOk now rows, ?_, ?_, rfl⟩
  · induction rows with
    | nil => rfl
    | cons x rest ih =>
      by_cases hx : eligibleForEmail x = true
      · simp [sendTrackingEmails, hx, ih]
      · simp only [Bool.not_eq_true] at hx
        simp [sendTrackingEmails, hx, ih]
  · simp [dispatchRow, helig, markEmailSent]

/-- Witness for `send_failure_swallowed_but_marked`: a two-row store in
which the first send fails and the second succeeds; the scan still
marks both rows. -/
theorem send_failure_swallowed_but_marked_witness :
    (sendTrackingEmails (fun x => !(x.sessionId == "tx_fail")) "t1"
        [failingSendRow, trackedRow]).1 =
      [failingSendRow, trackedRow].map (dispatchRow "t1") ∧
    (sendTrackingEmails (fun x => !(x.sessionId == "tx_fail")) "t1"
        [failingSendRow, trackedRow]).2 =
      [failingSendRow, trackedRow].flatMap
        (fun x => if eligibleForEmail x then
          sendTrackingEmail (!(x.sessionId == "tx_fail")) x.email x.sessionId
            x.trackingNumber x.status
        else []) ∧
    (dispatchRow "t1" failingSendRow).emailSent = "Yes" ∧
    sendTrackingEmail false failingSendRow.email failingSendRow.sessionId
      failingSendRow.trackingNumber failingSendRow.status = [] :=
  send_failure_swallowed_but_marked (fun x => !(x.sessionId == "tx_fail")) "t1"
    [failingSendRow, trackedRow] failingSendRow (by decide)

/-- C5. Tracking-link derivation follows the fixed precedence over the
declarative pattern semantics — USPS pattern `^\d+[A-Z]{2}\d+US$`, then
prefix `1Z`, then exactly twelve digits, then the USPS default — and
the four sample inputs produce the UPS, USPS, FedEx and fallback-USPS
links respectively (the UPS link embeds the literal sample string). -/
theorem tracking_link_precedence (s : String) :
    getTrackingUrl s =
      (if IsUspsPattern (jsToUpperCase (jsTrim s)).data then
        uspsUrlBase ++ jsToUpperCase (jsTrim s)
      else if jsStartsWith (jsToUpperCase (jsTrim s)) "1Z" then
        upsUrlBase ++ jsToUpperCase (jsTrim s)
      else if IsTwelveDigits (jsToUpperCase (jsTrim s)).data then
        fedexUrlBase ++ jsToUpperCase (jsTrim s)
      else uspsUrlBase ++ jsToUpperCase (jsTrim s)) ∧
    getTrackingUrl "1Z999AA10123456784" =
      "https://www.ups.com/track?tracknum=1Z999AA10123456784" ∧
    getTrackingUrl "9400111899223197428490" =
      "https://tools.usps.com/go/TrackConfirmAction?tLabels=9400111899223197428490" ∧
    getTrackingUrl "123456789012" =
      "https://www.fedex.com/fedextrack/?trknbr=123456789012" ∧
    getTrackingUrl "ABC123" =
      "https://tools.usps.com/go/TrackConfirmAction?tLabels=ABC123" := by
  refine ⟨?_, by decide, by decide, by decide, by decide⟩
  simp only [getTrackingUrl]
  by_cases h1 : uspsPatternMatch (jsToUpperCase (jsTrim s)).data = true
  · have hp1 : IsUspsPattern (jsToUpperCase (jsTrim s)).data :=
      (uspsPatternMatch_iff _).mp h1
    simp [h1, hp1]
  · have hp1 : ¬ IsUspsPattern (jsToUpperCase (jsTrim s)).data := fun hp =>
      h1 ((uspsPatternMatch_iff _).mpr hp)
    by_cases h2 : jsStartsWith (jsToUpperCase (jsTrim s)) "1Z" = true
    · simp [h1, hp1, h2]
    · by_cases h3 : twelveDigitMatch (jsToUpperCase (jsTrim s)).data = true
      · have hp3 : IsTwelveDigits (jsToUpperCase (jsTrim s)).data :=
          (twelveDigitMatch_iff _).mp h3
        simp [h1, hp1, h2, h3, hp3]
      · have hp3 : ¬ IsTwelveDigits (jsToUpperCase (jsTrim s)).data := fun hp =>
          h3 ((twelveDigitMatch_iff _).mpr hp)
        simp [h1, hp1, h2, h3, hp3]

/-- C10 counterexample: the browser-side `getTrackingUrl` of
js/order-status.js returns `null` on the empty input string instead of
a URL embedding the normalized (empty) string — its leading falsy
guard precedes the normalization — so the claim does not hold for
every input string of both implementations. -/
theorem browser_tracking_url_empty_none : getTrackingUrlBrowser "" = none := rfl

/-- C10 (amended: the totality statement holds for the server-side
`getTrackingUrl` on every input, while the browser version agrees with
it on every non-empty input and returns `null` on the empty string).
Both normalize by trim-then-uppercase and embed the normalized string
into one of the three carrier URL bases; the lower-case sample input
yields the UPS link embedding its upper-cased form. -/
theorem tracking_url_normalization (s : String) :
    (getTrackingUrl s = uspsUrlBase ++ jsToUpperCase (jsTrim s) ∨
     getTrackingUrl s = upsUrlBase ++ jsToUpperCase (jsTrim s) ∨
     getTrackingUrl s = fedexUrlBase ++ jsToUpperCase (jsTrim s)) ∧
    getTrackingUrlBrowser s =
      (if s = "" then none else some (getTrackingUrl s)) ∧
    getTrackingUrl "1z999aa10123456784" =
      "https://www.ups.com/track?tracknum=1Z999AA10123456784" ∧
    getTrackingUrlBrowser "1z999aa10123456784" =
      some "https://www.ups.com/track?tracknum=1Z999AA10123456784" := by
  refine ⟨?_, ?_, by decide, by decide⟩
  · simp only [getTrackingUrl]
    by_cases h1 : uspsPatternMatch (jsToUpperCase (jsTrim s)).data = true
    · simp [h1]
    · by_cases h2 : jsStartsWith (jsToUpperCase (jsTrim s)) "1Z" = true
      · simp [h1, h2]
      · by_cases h3 : twelveDigitMatch (jsToUpperCase (jsTrim s)).data = true
        · simp [h1, h2, h3]
        · simp [h1, h2, h3]
  · by_cases hs : s = ""
    · rw [if_pos hs, hs]; rfl
    · simp only [getTrackingUrlBrowser, getTrackingUrl, if_neg hs]
      by_cases h1 : uspsPatternMatch (jsToUpperCase (jsTrim s)).data = true
      · simp [h1]
      · by_cases h2 : jsStartsWith (jsToUpperCase (jsTrim s)) "1Z" = true
        · simp [h1, h2]
        · by_cases h3 : twelveDigitMatch (jsToUpperCase (jsTrim s)).data = true
          · simp [h1, h2, h3]
          · simp [h1, h2, h3]

/-- C7. Empty-cart rejection: a session-creation request whose cart is
missing, whose cart has no items field, or whose item list is empty is
answered with the cart-empty error (`InvalidCart` in the spec taxonomy,
serialized by the source as `Error: Cart is empty`) and the external
payment processor is never called (the call log stays empty). -/
theorem empty_cart_rejected (stripe : StripePayload → StripeApiResult)
    (data : CheckoutRequest)
    (h : data.cart = none ∨
      ∃ c, data.cart = some c ∧ (c.items = none ∨ c.items = some [])) :
    createCheckoutSession stripe data =
      (CheckoutResponse.error "Error: Cart is empty", []) := by
  rcases h with h | ⟨c, hc, h2 | h2⟩
  · simp [createCheckoutSession, h]
  · simp [createCheckoutSession, hc, h2]
  · simp [createCheckoutSession, hc, h2]

/-- Witness for `empty_cart_rejected`: both a request with an empty
item list and a request with no cart at all are rejected without any
call to the processor oracle. -/
theorem empty_cart_rejected_witness :
    createCheckoutSession (fun _ => StripeApiResult.apiError "unused")
        { cart := some { sessionId := none, items := some [] },
          shippingAddress := none, environment := none } =
      (CheckoutResponse.error "Error: Cart is empty", []) ∧
    createCheckoutSession (fun _ => StripeApiResult.apiError "unused")
        { cart := none, shippingAddress := none, environment := none } =
      (CheckoutResponse.error "Error: Cart is empty", []) :=
  ⟨empty_cart_rejected _ _ (Or.inr ⟨_, rfl, Or.inr rfl⟩),
   empty_cart_rejected _ _ (Or.inl rfl)⟩

end AgroverseShop
